import Mathlib

/-!
Shallow embedding of `main.py` from the Where-are-you-turtle repository:
a stochastic simulation in which a sea turtle and a floating yoke perform
random walks on a flat latitude/longitude plane until they come within a
success radius of each other.  Machine floats are modelled as real numbers;
the process-wide random generator of the original is modelled as an
explicitly threaded random-number source (`RNG`), as the design notes of the
specification prescribe for deterministic testing.
-/

namespace WhereTurtle

noncomputable section

/-- `clamp_lat` from `main.py`: `max(-90.0, min(90.0, lat))`. -/
def clamp_lat (lat : ℝ) : ℝ := max (-90) (min 90 lat)

/-- `wrap_lon` from `main.py`: a single wrap pass,
`if lon > 180: lon -= 360 elif lon < -180: lon += 360`. -/
def wrap_lon (lon : ℝ) : ℝ :=
  if lon > 180 then lon - 360
  else if lon < -180 then lon + 360
  else lon

/-- `distance_deg` from `main.py`:
`math.sqrt((lat1 - lat2) ** 2 + (lon1 - lon2) ** 2)`. -/
def distance_deg (lat1 lon1 lat2 lon2 : ℝ) : ℝ :=
  Real.sqrt ((lat1 - lat2) ^ 2 + (lon1 - lon2) ^ 2)

/-- An explicit random-number source: `uniform a b r` yields the drawn value
together with the successor state of the source. -/
structure RNG (σ : Type) where
  uniform : ℝ → ℝ → σ → ℝ × σ

/-- A sound random source returns a value inside `[a, b]` whenever `a ≤ b`,
as `random.uniform(a, b)` does. -/
def RNG.Sound {σ : Type} (g : RNG σ) : Prop :=
  ∀ a b : ℝ, ∀ r : σ, a ≤ b → a ≤ (g.uniform a b r).1 ∧ (g.uniform a b r).1 ≤ b

/-- The `Turtle` class: a latitude/longitude position. -/
structure Turtle where
  lat : ℝ
  lon : ℝ

/-- `Turtle.__init__`: `lat = uniform(-60, 60)`, `lon = uniform(-180, 180)`,
drawn in that order from the random source. -/
def Turtle.init {σ : Type} (g : RNG σ) (r : σ) : Turtle × σ :=
  let dlat := g.uniform (-60) 60 r
  let dlon := g.uniform (-180) 180 dlat.2
  (⟨dlat.1, dlon.1⟩, dlon.2)

/-- `Turtle.move` with the two random draws (heading angle and annual speed)
made explicit: `delta_deg = speed / 111000`, latitude gains
`sin(angle) * delta_deg`, longitude gains `cos(angle) * delta_deg`, then the
latitude is clamped and the longitude wrapped. -/
def Turtle.move (t : Turtle) (angle speed_km_per_year : ℝ) : Turtle :=
  let delta_deg := speed_km_per_year / 111000
  { lat := clamp_lat (t.lat + Real.sin angle * delta_deg)
    lon := wrap_lon (t.lon + Real.cos angle * delta_deg) }

/-- `Turtle.move` with the draws taken from the random source, in the order of
the code: heading `uniform(0, 2π)`, then speed `uniform(1000, 3000)`. -/
def Turtle.moveR {σ : Type} (g : RNG σ) (t : Turtle) (r : σ) : Turtle × σ :=
  let a := g.uniform 0 (2 * Real.pi) r
  let v := g.uniform 1000 3000 a.2
  (t.move a.1 v.1, v.2)

/-- The `Yoke` class: a position plus the seasonal phase drawn at creation. -/
structure Yoke where
  lat : ℝ
  lon : ℝ
  season_phase : ℝ

/-- `Yoke.__init__`: `lat = uniform(-60, 60)`, `lon = uniform(-180, 180)`,
`season_phase = uniform(0, 2π)`, drawn in that order. -/
def Yoke.init {σ : Type} (g : RNG σ) (r : σ) : Yoke × σ :=
  let dlat := g.uniform (-60) 60 r
  let dlon := g.uniform (-180) 180 dlat.2
  let dphase := g.uniform 0 (2 * Real.pi) dlon.2
  (⟨dlat.1, dlon.1, dphase.1⟩, dphase.2)

/-- `Yoke.move(year)` with the four random draws (current and wind components)
made explicit: the seasonal drift `0.01 * sin(season_phase + year / 50)` is
added, together with the current and wind, to the latitude only; the
longitude gains only its current and wind components. -/
def Yoke.move (y : Yoke) (year : ℕ) (current_lat current_lon wind_lat wind_lon : ℝ) : Yoke :=
  let seasonal_drift := 0.01 * Real.sin (y.season_phase + (year : ℝ) / 50)
  { lat := clamp_lat (y.lat + (current_lat + wind_lat + seasonal_drift))
    lon := wrap_lon (y.lon + (current_lon + wind_lon))
    season_phase := y.season_phase }

/-- `Yoke.move` with the draws taken from the random source, in the order of
the code: `current_lat ~ uniform(-0.005, 0.005)`, `current_lon ~
uniform(-0.01, 0.01)`, `wind_lat ~ uniform(-0.002, 0.002)`, `wind_lon ~
uniform(-0.002, 0.002)`. -/
def Yoke.moveR {σ : Type} (g : RNG σ) (y : Yoke) (year : ℕ) (r : σ) : Yoke × σ :=
  let cl := g.uniform (-0.005) 0.005 r
  let co := g.uniform (-0.01) 0.01 cl.2
  let wl := g.uniform (-0.002) 0.002 co.2
  let wo := g.uniform (-0.002) 0.002 wl.2
  (y.move year cl.1 co.1 wl.1 wo.1, wo.2)

/-- `YEARS_PER_BREATH = 100` from `simulate`. -/
def YEARS_PER_BREATH : ℕ := 100

/-- `SUCCESS_RADIUS = 0.01` from `simulate`. -/
def SUCCESS_RADIUS : ℝ := 0.01

/-- The mutable state of `simulate`: the two entities, the year counter, the
breath counter, and the state of the random source. -/
structure SimState (σ : Type) where
  turtle : Turtle
  yoke : Yoke
  years_passed : ℕ
  step : ℕ
  rng : σ

/-- The initialisation of `simulate`: `turtle = Turtle()`, then
`yoke = Yoke()`, `years_passed = 0`, `step = 0`. -/
def simInit {σ : Type} (g : RNG σ) (r : σ) : SimState σ :=
  let t := Turtle.init g r
  let y := Yoke.init g t.2
  { turtle := t.1, yoke := y.1, years_passed := 0, step := 0, rng := y.2 }

/-- One iteration of the `while True` loop of `simulate`: the turtle moves,
the yoke moves with the pre-increment year count, the year counter is
incremented, and the breath counter is incremented exactly when the new year
count is a multiple of `YEARS_PER_BREATH`. -/
def simStep {σ : Type} (g : RNG σ) (s : SimState σ) : SimState σ :=
  let t := Turtle.moveR g s.turtle s.rng
  let y := Yoke.moveR g s.yoke s.years_passed t.2
  let years := s.years_passed + 1
  { turtle := t.1
    yoke := y.1
    years_passed := years
    step := if years % YEARS_PER_BREATH = 0 then s.step + 1 else s.step
    rng := y.2 }

/-- The loop-exit condition of `simulate`, evaluated at the end of one
iteration starting from state `s`: inside the `years_passed % YEARS_PER_BREATH
== 0` branch the distance between the post-move positions is compared against
`SUCCESS_RADIUS`; outside that branch the loop never breaks. -/
def simBreak {σ : Type} (g : RNG σ) (s : SimState σ) : Prop :=
  let t := simStep g s
  if t.years_passed % YEARS_PER_BREATH = 0 then
    distance_deg t.turtle.lat t.turtle.lon t.yoke.lat t.yoke.lon ≤ SUCCESS_RADIUS
  else False

/-- `n` iterations of the simulation loop. -/
def simIter {σ : Type} (g : RNG σ) (s : SimState σ) : ℕ → SimState σ
  | 0 => s
  | n + 1 => simStep g (simIter g s n)

/-- One breath report: the data printed at a breath event (breath number,
years elapsed, and both positions). -/
structure BreathReport where
  step : ℕ
  years : ℕ
  turtle_lat : ℝ
  turtle_lon : ℝ
  yoke_lat : ℝ
  yoke_lon : ℝ

/-- The sequence of breath reports emitted during the first `n` iterations of
the loop started at state `s`. -/
def breathTrace {σ : Type} (g : RNG σ) (s : SimState σ) : ℕ → List BreathReport
  | 0 => []
  | n + 1 =>
    let t := simIter g s (n + 1)
    if t.years_passed % YEARS_PER_BREATH = 0 then
      breathTrace g s n ++
        [⟨t.step, t.years_passed, t.turtle.lat, t.turtle.lon, t.yoke.lat, t.yoke.lon⟩]
    else breathTrace g s n

/-- The loop started at `s` halts for the first time at the end of iteration
`n` (so the total years to success is `n + 1` when `s.years_passed = 0`). -/
def firstBreakAt {σ : Type} (g : RNG σ) (s : SimState σ) (n : ℕ) : Prop :=
  simBreak g (simIter g s n) ∧ ∀ m : ℕ, m < n → ¬ simBreak g (simIter g s m)

/-- A concrete deterministic random source over `ℕ` states: every draw returns
the lower endpoint of the requested range. -/
def lowRng : RNG ℕ := ⟨fun a _ n => (a, n + 1)⟩

/-- `lowRng` is a sound random source. -/
lemma lowRng_sound : lowRng.Sound := by
  intro a b r h
  exact ⟨le_refl a, h⟩

/-- A concrete simulation state used to instantiate universally quantified
theorems. -/
def simState0 : SimState ℕ :=
  { turtle := ⟨0, 0⟩, yoke := ⟨0, 0, 0⟩, years_passed := 0, step := 0, rng := 0 }

/-- Claim C3: `wrap_lon` satisfies the specification's case analysis: on
`(180, 360]` it subtracts `360` and lands in `(-180, 180]`, on `[-360, -180)`
it adds `360`, and on `(-180, 180]` it is the identity. -/
theorem wrap_lon_cases (x : ℝ) :
    ((180 < x ∧ x ≤ 360) → wrap_lon x = x - 360 ∧ -180 < x - 360 ∧ x - 360 ≤ 180) ∧
    ((-360 ≤ x ∧ x < -180) → wrap_lon x = x + 360) ∧
    ((-180 < x ∧ x ≤ 180) → wrap_lon x = x) := by
  unfold wrap_lon
  refine ⟨fun h => ?_, fun h => ?_, fun h => ?_⟩
  · rw [if_pos h.1]
    exact ⟨rfl, by linarith [h.1], by linarith [h.2]⟩
  · rw [if_neg (by linarith [h.2]), if_pos h.2]
  · rw [if_neg (by linarith [h.2]), if_neg (by linarith [h.1])]

/-- Witness for C3: the three cases evaluated at 200, -200 and 100. -/
theorem wrap_lon_cases_witness :
    wrap_lon 200 = -160 ∧ wrap_lon (-200) = 160 ∧ wrap_lon 100 = 100 := by
  refine ⟨?_, ?_, ?_⟩
  · have h := ((wrap_lon_cases 200).1 (by norm_num)).1
    rw [h]; norm_num
  · have h := (wrap_lon_cases (-200)).2.1 (by norm_num)
    rw [h]; norm_num
  · exact (wrap_lon_cases 100).2.2 (by norm_num)

/-- `clamp_lat` always lands in `[-90, 90]`. -/
lemma clamp_lat_bounds (x : ℝ) : -90 ≤ clamp_lat x ∧ clamp_lat x ≤ 90 := by
  unfold clamp_lat
  exact ⟨le_max_left _ _, max_le (by norm_num) (min_le_left _ _)⟩

/-- One wrap pass lands in `[-180, 180]` for any input in `[-540, 540]`. -/
lemma wrap_lon_bounds (x : ℝ) (h1 : -540 ≤ x) (h2 : x ≤ 540) :
    -180 ≤ wrap_lon x ∧ wrap_lon x ≤ 180 := by
  unfold wrap_lon
  split_ifs with ha hb
  · exact ⟨by linarith, by linarith⟩
  · exact ⟨by linarith, by linarith⟩
  · exact ⟨by linarith, by linarith⟩

/-- Bound on a product of a quantity of absolute value at most one with a
nonnegative factor bounded by `M`. -/
lemma abs_mul_le_of_le (x c M : ℝ) (hx : |x| ≤ 1) (hc : 0 ≤ c) (hcM : c ≤ M) :
    |x * c| ≤ M := by
  rw [abs_mul, abs_of_nonneg hc]
  nlinarith [abs_nonneg x, mul_nonneg (sub_nonneg.mpr hx) hc]

/-- Claim C1: the loop halts at the end of an iteration exactly when the
post-increment year count is a multiple of `YEARS_PER_BREATH` and the distance
between the post-move positions is at most `SUCCESS_RADIUS`; on a year that is
not a multiple of `YEARS_PER_BREATH` the loop never halts, whatever the
distance is. -/
theorem simBreak_iff {σ : Type} (g : RNG σ) (s : SimState σ) :
    (simBreak g s ↔
      (simStep g s).years_passed % YEARS_PER_BREATH = 0 ∧
        distance_deg (simStep g s).turtle.lat (simStep g s).turtle.lon
          (simStep g s).yoke.lat (simStep g s).yoke.lon ≤ SUCCESS_RADIUS) ∧
    ((simStep g s).years_passed % YEARS_PER_BREATH ≠ 0 → ¬ simBreak g s) := by
  have hdef : simBreak g s =
      if (simStep g s).years_passed % YEARS_PER_BREATH = 0 then
        distance_deg (simStep g s).turtle.lat (simStep g s).turtle.lon
          (simStep g s).yoke.lat (simStep g s).yoke.lon ≤ SUCCESS_RADIUS
      else False := rfl
  constructor
  · rw [hdef]
    by_cases h : (simStep g s).years_passed % YEARS_PER_BREATH = 0
    · rw [if_pos h]
      exact ⟨fun hd => ⟨h, hd⟩, fun hd => hd.2⟩
    · rw [if_neg h]
      exact ⟨False.elim, fun hd => h hd.1⟩
  · intro h hb
    rw [hdef, if_neg h] at hb
    exact hb

/-- Witness for C1: from the concrete state with zero years passed, the
post-increment year count is 1, so the loop does not halt there. -/
theorem simBreak_iff_witness : ¬ simBreak lowRng simState0 :=
  (simBreak_iff lowRng simState0).2 (by decide)

/-- Claim C4: every loop iteration increments the year counter by one and runs
the yoke move with the pre-increment year count; the seasonal drift of a yoke
move is `0.01 * sin(season_phase + year / 50)`, which enters the latitude
update and not the longitude update. -/
theorem yoke_move_pre_increment_year {σ : Type} (g : RNG σ) (s : SimState σ) :
    (simStep g s).years_passed = s.years_passed + 1 ∧
    (simStep g s).yoke =
      (Yoke.moveR g s.yoke s.years_passed (Turtle.moveR g s.turtle s.rng).2).1 ∧
    (∀ (y : Yoke) (year : ℕ) (cl co wl wo : ℝ),
      (y.move year cl co wl wo).lat =
        clamp_lat (y.lat + (cl + wl + 0.01 * Real.sin (y.season_phase + (year : ℝ) / 50))) ∧
      (y.move year cl co wl wo).lon = wrap_lon (y.lon + (co + wo))) :=
  ⟨rfl, rfl, fun _ _ _ _ _ _ => ⟨rfl, rfl⟩⟩

/-- Claim C9: a yoke move never changes the seasonal phase: the moved yoke is
the original with only the latitude and longitude fields replaced. -/
theorem yoke_move_season_phase_const (y : Yoke) (year : ℕ) (cl co wl wo : ℝ)
    {σ : Type} (g : RNG σ) (r : σ) :
    (y.move year cl co wl wo).season_phase = y.season_phase ∧
    ((Yoke.moveR g y year r).1).season_phase = y.season_phase ∧
    y.move year cl co wl wo =
      { y with lat := (y.move year cl co wl wo).lat
               lon := (y.move year cl co wl wo).lon } :=
  ⟨rfl, rfl, rfl⟩

/-- The latitude of a moved turtle, unfolded. -/
lemma turtle_move_lat_eq (t : Turtle) (a v : ℝ) :
    (t.move a v).lat = clamp_lat (t.lat + Real.sin a * (v / 111000)) := rfl

/-- The longitude of a moved turtle, unfolded. -/
lemma turtle_move_lon_eq (t : Turtle) (a v : ℝ) :
    (t.move a v).lon = wrap_lon (t.lon + Real.cos a * (v / 111000)) := rfl

/-- The latitude of a moved yoke, unfolded. -/
lemma yoke_move_lat_eq (y : Yoke) (year : ℕ) (cl co wl wo : ℝ) :
    (y.move year cl co wl wo).lat =
      clamp_lat (y.lat + (cl + wl + 0.01 * Real.sin (y.season_phase + (year : ℝ) / 50))) := rfl

/-- The longitude of a moved yoke, unfolded. -/
lemma yoke_move_lon_eq (y : Yoke) (year : ℕ) (cl co wl wo : ℝ) :
    (y.move year cl co wl wo).lon = wrap_lon (y.lon + (co + wo)) := rfl

/-- The latitude drawn by the turtle constructor, unfolded. -/
lemma turtle_init_lat_eq {σ : Type} (g : RNG σ) (r : σ) :
    (Turtle.init g r).1.lat = (g.uniform (-60) 60 r).1 := rfl

/-- The longitude drawn by the turtle constructor, unfolded. -/
lemma turtle_init_lon_eq {σ : Type} (g : RNG σ) (r : σ) :
    (Turtle.init g r).1.lon = (g.uniform (-180) 180 (g.uniform (-60) 60 r).2).1 := rfl

/-- The latitude drawn by the yoke constructor, unfolded. -/
lemma yoke_init_lat_eq {σ : Type} (g : RNG σ) (r : σ) :
    (Yoke.init g r).1.lat = (g.uniform (-60) 60 r).1 := rfl

/-- The longitude drawn by the yoke constructor, unfolded. -/
lemma yoke_init_lon_eq {σ : Type} (g : RNG σ) (r : σ) :
    (Yoke.init g r).1.lon = (g.uniform (-180) 180 (g.uniform (-60) 60 r).2).1 := rfl

/-- Claim C5: a turtle move adds `sin(heading) * (speed / 111000)` to the
latitude and `cos(heading) * (speed / 111000)` to the longitude before the
clamp and the wrap, and for a speed in `[1000, 3000]` each pre-clamp,
pre-wrap coordinate displacement has magnitude at most `3000 / 111000`. -/
theorem turtle_move_displacement (t : Turtle) (a v : ℝ)
    (ha1 : 0 ≤ a) (ha2 : a < 2 * Real.pi) (hv1 : 1000 ≤ v) (hv2 : v ≤ 3000) :
    (t.move a v).lat = clamp_lat (t.lat + Real.sin a * (v / 111000)) ∧
    (t.move a v).lon = wrap_lon (t.lon + Real.cos a * (v / 111000)) ∧
    |Real.sin a * (v / 111000)| ≤ 3000 / 111000 ∧
    |Real.cos a * (v / 111000)| ≤ 3000 / 111000 := by
  refine ⟨rfl, rfl, ?_, ?_⟩
  · exact abs_mul_le_of_le _ _ _ (Real.abs_sin_le_one a) (by linarith) (by linarith)
  · exact abs_mul_le_of_le _ _ _ (Real.abs_cos_le_one a) (by linarith) (by linarith)

/-- Witness for C5: the turtle move at the origin with heading 0 and speed
2000. -/
theorem turtle_move_displacement_witness :
    (Turtle.move ⟨0, 0⟩ 0 2000).lat = clamp_lat (0 + Real.sin 0 * (2000 / 111000)) ∧
    (Turtle.move ⟨0, 0⟩ 0 2000).lon = wrap_lon (0 + Real.cos 0 * (2000 / 111000)) ∧
    |Real.sin 0 * ((2000 : ℝ) / 111000)| ≤ 3000 / 111000 ∧
    |Real.cos 0 * ((2000 : ℝ) / 111000)| ≤ 3000 / 111000 :=
  turtle_move_displacement ⟨0, 0⟩ 0 2000 (le_refl 0) (by positivity) (by norm_num)
    (by norm_num)

/-- Claim C6: for draws in the stated ranges, the pre-clamp latitude
displacement of a yoke move has magnitude at most `0.017` and the pre-wrap
longitude displacement has magnitude at most `0.012`. -/
theorem yoke_move_displacement (y : Yoke) (year : ℕ) (cl co wl wo : ℝ)
    (hcl1 : -0.005 ≤ cl) (hcl2 : cl ≤ 0.005) (hco1 : -0.01 ≤ co) (hco2 : co ≤ 0.01)
    (hwl1 : -0.002 ≤ wl) (hwl2 : wl ≤ 0.002) (hwo1 : -0.002 ≤ wo) (hwo2 : wo ≤ 0.002) :
    (y.move year cl co wl wo).lat =
      clamp_lat (y.lat + (cl + wl + 0.01 * Real.sin (y.season_phase + (year : ℝ) / 50))) ∧
    (y.move year cl co wl wo).lon = wrap_lon (y.lon + (co + wo)) ∧
    |cl + wl + 0.01 * Real.sin (y.season_phase + (year : ℝ) / 50)| ≤ 0.017 ∧
    |co + wo| ≤ 0.012 := by
  have hs1 := Real.neg_one_le_sin (y.season_phase + (year : ℝ) / 50)
  have hs2 := Real.sin_le_one (y.season_phase + (year : ℝ) / 50)
  refine ⟨rfl, rfl, ?_, ?_⟩
  · rw [abs_le]; exact ⟨by linarith, by linarith⟩
  · rw [abs_le]; exact ⟨by linarith, by linarith⟩

/-- Witness for C6: the yoke move at the origin with phase 0, year 0 and all
draws zero. -/
theorem yoke_move_displacement_witness :
    (Yoke.move ⟨0, 0, 0⟩ 0 0 0 0 0).lat =
      clamp_lat (0 + (0 + 0 + 0.01 * Real.sin (0 + ((0 : ℕ) : ℝ) / 50))) ∧
    (Yoke.move ⟨0, 0, 0⟩ 0 0 0 0 0).lon = wrap_lon (0 + (0 + 0)) ∧
    |(0 : ℝ) + 0 + 0.01 * Real.sin (0 + ((0 : ℕ) : ℝ) / 50)| ≤ 0.017 ∧
    |(0 : ℝ) + 0| ≤ 0.012 :=
  yoke_move_displacement ⟨0, 0, 0⟩ 0 0 0 0 0 (by norm_num) (by norm_num) (by norm_num)
    (by norm_num) (by norm_num) (by norm_num) (by norm_num) (by norm_num)

/-- Counterexample to claim C2 as stated: the turtle constructor stores the
raw longitude draw, and `-180` is a value `uniform(-180, 180)` can return, so
immediately after construction the longitude can be exactly `-180`, outside
the claimed half-open interval `(-180, 180]`. -/
theorem turtle_init_lon_boundary :
    (Turtle.init lowRng 0).1.lon = -180 ∧ ¬ (-180 < (Turtle.init lowRng 0).1.lon) := by
  have h : (Turtle.init lowRng 0).1.lon = -180 := rfl
  exact ⟨h, by rw [h]; exact lt_irrefl (-180 : ℝ)⟩

/-- Claim C2 as amended: after turtle or yoke construction with a sound
random source, and after any turtle or yoke move whose incoming longitude is
in `[-180, 180]` and whose longitude draws are in their stated ranges, the
latitude lies in `[-90, 90]` and the longitude lies in the closed interval
`[-180, 180]` (longitude exactly `-180` is possible). -/
theorem position_invariant_closed :
    (∀ (σ : Type) (g : RNG σ), g.Sound → ∀ r : σ,
      -90 ≤ (Turtle.init g r).1.lat ∧ (Turtle.init g r).1.lat ≤ 90 ∧
      -180 ≤ (Turtle.init g r).1.lon ∧ (Turtle.init g r).1.lon ≤ 180) ∧
    (∀ (σ : Type) (g : RNG σ), g.Sound → ∀ r : σ,
      -90 ≤ (Yoke.init g r).1.lat ∧ (Yoke.init g r).1.lat ≤ 90 ∧
      -180 ≤ (Yoke.init g r).1.lon ∧ (Yoke.init g r).1.lon ≤ 180) ∧
    (∀ (t : Turtle) (a v : ℝ), 1000 ≤ v → v ≤ 3000 → -180 ≤ t.lon → t.lon ≤ 180 →
      -90 ≤ (t.move a v).lat ∧ (t.move a v).lat ≤ 90 ∧
      -180 ≤ (t.move a v).lon ∧ (t.move a v).lon ≤ 180) ∧
    (∀ (y : Yoke) (year : ℕ) (cl co wl wo : ℝ),
      -0.01 ≤ co → co ≤ 0.01 → -0.002 ≤ wo → wo ≤ 0.002 → -180 ≤ y.lon → y.lon ≤ 180 →
      -90 ≤ (y.move year cl co wl wo).lat ∧ (y.move year cl co wl wo).lat ≤ 90 ∧
      -180 ≤ (y.move year cl co wl wo).lon ∧ (y.move year cl co wl wo).lon ≤ 180) := by
  refine ⟨?_, ?_, ?_, ?_⟩
  · intro σ g hg r
    have h1 := hg (-60) 60 r (by norm_num)
    have h2 := hg (-180) 180 ((g.uniform (-60) 60 r).2) (by norm_num)
    rw [turtle_init_lat_eq, turtle_init_lon_eq]
    exact ⟨by linarith [h1.1], by linarith [h1.2], h2.1, h2.2⟩
  · intro σ g hg r
    have h1 := hg (-60) 60 r (by norm_num)
    have h2 := hg (-180) 180 ((g.uniform (-60) 60 r).2) (by norm_num)
    rw [yoke_init_lat_eq, yoke_init_lon_eq]
    exact ⟨by linarith [h1.1], by linarith [h1.2], h2.1, h2.2⟩
  · intro t a v hv1 hv2 hl1 hl2
    rw [turtle_move_lat_eq, turtle_move_lon_eq]
    have hlat := clamp_lat_bounds (t.lat + Real.sin a * (v / 111000))
    have hd := abs_le.mp (abs_mul_le_of_le (Real.cos a) (v / 111000) 1
      (Real.abs_cos_le_one a) (by linarith) (by linarith))
    have hlon := wrap_lon_bounds (t.lon + Real.cos a * (v / 111000))
      (by linarith [hd.1]) (by linarith [hd.2])
    exact ⟨hlat.1, hlat.2, hlon.1, hlon.2⟩
  · intro y year cl co wl wo hco1 hco2 hwo1 hwo2 hl1 hl2
    rw [yoke_move_lat_eq, yoke_move_lon_eq]
    have hlat := clamp_lat_bounds
      (y.lat + (cl + wl + 0.01 * Real.sin (y.season_phase + (year : ℝ) / 50)))
    have hlon := wrap_lon_bounds (y.lon + (co + wo)) (by linarith) (by linarith)
    exact ⟨hlat.1, hlat.2, hlon.1, hlon.2⟩

/-- Witness for the amended C2: the four operations instantiated at concrete
inputs. -/
theorem position_invariant_closed_witness :
    (-90 ≤ (Turtle.init lowRng 0).1.lat ∧ (Turtle.init lowRng 0).1.lat ≤ 90 ∧
      -180 ≤ (Turtle.init lowRng 0).1.lon ∧ (Turtle.init lowRng 0).1.lon ≤ 180) ∧
    (-90 ≤ (Yoke.init lowRng 0).1.lat ∧ (Yoke.init lowRng 0).1.lat ≤ 90 ∧
      -180 ≤ (Yoke.init lowRng 0).1.lon ∧ (Yoke.init lowRng 0).1.lon ≤ 180) ∧
    (-90 ≤ (Turtle.move ⟨0, 0⟩ 0 2000).lat ∧ (Turtle.move ⟨0, 0⟩ 0 2000).lat ≤ 90 ∧
      -180 ≤ (Turtle.move ⟨0, 0⟩ 0 2000).lon ∧ (Turtle.move ⟨0, 0⟩ 0 2000).lon ≤ 180) ∧
    (-90 ≤ (Yoke.move ⟨0, 0, 0⟩ 0 0 0 0 0).lat ∧
      (Yoke.move ⟨0, 0, 0⟩ 0 0 0 0 0).lat ≤ 90 ∧
      -180 ≤ (Yoke.move ⟨0, 0, 0⟩ 0 0 0 0 0).lon ∧
      (Yoke.move ⟨0, 0, 0⟩ 0 0 0 0 0).lon ≤ 180) :=
  ⟨position_invariant_closed.1 ℕ lowRng lowRng_sound 0,
   position_invariant_closed.2.1 ℕ lowRng lowRng_sound 0,
   position_invariant_closed.2.2.1 ⟨0, 0⟩ 0 2000 (by norm_num) (by norm_num)
     (by show (-180 : ℝ) ≤ 0; norm_num) (by show (0 : ℝ) ≤ 180; norm_num),
   position_invariant_closed.2.2.2 ⟨0, 0, 0⟩ 0 0 0 0 0 (by norm_num) (by norm_num)
     (by norm_num) (by norm_num) (by show (-180 : ℝ) ≤ 0; norm_num)
     (by show (0 : ℝ) ≤ 180; norm_num)⟩

/-- Claim C10: with a sound random source the yoke constructor draws its
position from the same ranges as the turtle constructor: latitude in
`[-60, 60]` and longitude in `[-180, 180]`. -/
theorem yoke_init_ranges {σ : Type} (g : RNG σ) (hg : g.Sound) (r : σ) :
    (-60 ≤ (Yoke.init g r).1.lat ∧ (Yoke.init g r).1.lat ≤ 60 ∧
      -180 ≤ (Yoke.init g r).1.lon ∧ (Yoke.init g r).1.lon ≤ 180) ∧
    (-60 ≤ (Turtle.init g r).1.lat ∧ (Turtle.init g r).1.lat ≤ 60 ∧
      -180 ≤ (Turtle.init g r).1.lon ∧ (Turtle.init g r).1.lon ≤ 180) := by
  have h1 := hg (-60) 60 r (by norm_num)
  have h2 := hg (-180) 180 ((g.uniform (-60) 60 r).2) (by norm_num)
  rw [yoke_init_lat_eq, yoke_init_lon_eq, turtle_init_lat_eq, turtle_init_lon_eq]
  exact ⟨⟨h1.1, h1.2, h2.1, h2.2⟩, h1.1, h1.2, h2.1, h2.2⟩

/-- Witness for C10: the two constructors run from `lowRng` at state 0. -/
theorem yoke_init_ranges_witness :
    (-60 ≤ (Yoke.init lowRng 0).1.lat ∧ (Yoke.init lowRng 0).1.lat ≤ 60 ∧
      -180 ≤ (Yoke.init lowRng 0).1.lon ∧ (Yoke.init lowRng 0).1.lon ≤ 180) ∧
    (-60 ≤ (Turtle.init lowRng 0).1.lat ∧ (Turtle.init lowRng 0).1.lat ≤ 60 ∧
      -180 ≤ (Turtle.init lowRng 0).1.lon ∧ (Turtle.init lowRng 0).1.lon ≤ 180) :=
  yoke_init_ranges lowRng lowRng_sound 0

/-- A latitude/longitude pair seen as a point of the Euclidean plane. -/
def pt2 (a b : ℝ) : EuclideanSpace ℝ (Fin 2) := ![a, b]

/-- `distance_deg` is the distance of the Euclidean plane `ℝ²`. -/
lemma distance_deg_eq_dist (a b c d : ℝ) :
    distance_deg a b c d = dist (pt2 a b) (pt2 c d) := by
  have h := EuclideanSpace.dist_eq (pt2 a b) (pt2 c d)
  rw [h]
  unfold distance_deg
  congr 1
  rw [Fin.sum_univ_two]
  simp only [pt2, Matrix.cons_val_zero, Matrix.cons_val_one, Matrix.head_cons,
    Real.dist_eq, sq_abs]

/-- Claim C7: `distance_deg` is symmetric, vanishes exactly on identical
positions, and satisfies the triangle inequality. -/
theorem distance_deg_metric (a b c d e f : ℝ) :
    distance_deg a b c d = distance_deg c d a b ∧
    (distance_deg a b c d = 0 ↔ a = c ∧ b = d) ∧
    distance_deg a b e f ≤ distance_deg a b c d + distance_deg c d e f := by
  refine ⟨?_, ?_, ?_⟩
  · unfold distance_deg
    congr 1
    ring
  · unfold distance_deg
    rw [Real.sqrt_eq_zero (by positivity)]
    constructor
    · intro h
      have h1 : (a - c) ^ 2 = 0 := by nlinarith [sq_nonneg (a - c), sq_nonneg (b - d)]
      have h2 : (b - d) ^ 2 = 0 := by nlinarith [sq_nonneg (a - c), sq_nonneg (b - d)]
      exact ⟨sub_eq_zero.mp (sq_eq_zero_iff.mp h1), sub_eq_zero.mp (sq_eq_zero_iff.mp h2)⟩
    · rintro ⟨h1, h2⟩
      rw [h1, h2]
      simp
  · rw [distance_deg_eq_dist a b e f, distance_deg_eq_dist a b c d,
      distance_deg_eq_dist c d e f]
    exact dist_triangle _ _ _

/-- Claim C8: the simulation is deterministic given its random source: two
runs started from equal random-source states produce the same sequence of
breath reports over any number of iterations and agree on the iteration at
which the loop first halts (hence on the total years to success). -/
theorem simulate_deterministic {σ : Type} (g : RNG σ) (r1 r2 : σ) (n : ℕ)
    (h : r1 = r2) :
    breathTrace g (simInit g r1) n = breathTrace g (simInit g r2) n ∧
    ∀ k : ℕ, firstBreakAt g (simInit g r1) k ↔ firstBreakAt g (simInit g r2) k := by
  subst h
  exact ⟨rfl, fun _ => Iff.rfl⟩

/-- Witness for C8: two runs from the `lowRng` state 0. -/
theorem simulate_deterministic_witness :
    breathTrace lowRng (simInit lowRng 0) 3 = breathTrace lowRng (simInit lowRng 0) 3 ∧
    (firstBreakAt lowRng (simInit lowRng 0) 0 ↔ firstBreakAt lowRng (simInit lowRng 0) 0) :=
  ⟨(simulate_deterministic lowRng 0 0 3 rfl).1,
   (simulate_deterministic lowRng 0 0 3 rfl).2 0⟩

end

end WhereTurtle
